import Mathlib

/-!
Verification of the integrity.js telemetry / directive-resolution core.

The definitions below are a shallow embedding of the JavaScript source:
  * `src/enhance.js`   — `applyMobileOptimizations` (the directive resolver),
                         `validateMobileAttribute`, `configureIntegrity`'s
                         performance-monitoring callback;
  * `src/hooks.js`     — `useMemory`'s limit parser, `usePerformance`'s
                         per-second measurement step, `useDevice`'s resize
                         handler, `useAdaptiveFeatures`'s level derivation.

JavaScript attribute values are modelled by `JVal` (strings, booleans and
numbers); absent object keys are `Option.none`.  Numbers are modelled as
exact rationals (the idealisation of IEEE doubles standard for a shallow
embedding; every concrete input exercised below is exactly representable).
-/

/-- A JavaScript attribute value: a string, a boolean or a number. -/
inductive JVal where
  | str (s : String)
  | bool (b : Bool)
  | num (q : ℚ)
deriving DecidableEq

/-- JavaScript truthiness of an optional attribute value: `undefined`,
`""`, `false` and `0` are falsy; everything else is truthy. -/
def truthy : Option JVal → Bool
  | none => false
  | some (.str s) => s ≠ ""
  | some (.bool b) => b
  | some (.num q) => q ≠ 0

/-- `!integrityProps[k]` in the source: the key is absent or its value is falsy. -/
def isFalsy (v : Option JVal) : Bool := !truthy v

/-- The slice of a node's props recognised by `processMobileAttributes`
(`src/enhance.js`) that the resolver rules read or write.  Each field is the
raw attribute value, `none` when the attribute is absent. -/
structure IntegrityProps where
  memoryLimit : Option JVal        -- 'memory-limit'
  mobileQuality : Option JVal      -- 'mobile-quality'
  lazyThreshold : Option JVal      -- 'lazy-threshold'
  performanceBudget : Option JVal  -- 'performance-budget'
  gcHint : Option JVal             -- 'gc-hint'
  touchDelay : Option JVal         -- 'touch-delay'
  deviceTarget : Option JVal       -- 'device-target'
  networkAware : Option JVal       -- 'network-aware'
  batteryAware : Option JVal       -- 'battery-aware'
deriving DecidableEq

/-- The empty integrity-prop map (no recognised attribute present). -/
def emptyProps : IntegrityProps :=
  ⟨none, none, none, none, none, none, none, none, none⟩

/-- The device/network/battery telemetry read by `applyMobileOptimizations`
from `navigator` (`src/enhance.js` lines 193–203 and 302–304): mobile
user-agent test, low-end test (`hardwareConcurrency <= 2 || deviceMemory <= 2`),
slow-connection test (`effectiveType` in `slow-2g|2g`), and the battery
promise's `level` / `charging` (with `batterySupported` standing for
`'getBattery' in navigator`). -/
structure Snapshot where
  isMobile : Bool
  isLowEnd : Bool
  slowNetwork : Bool
  batterySupported : Bool
  batteryLevel : ℚ
  batteryCharging : Bool
deriving DecidableEq

/-- Block `// Auto-apply mobile optimizations` of `applyMobileOptimizations`
(`src/enhance.js` lines 216–240).  Each write is guarded by the JS-falsiness
of the very field it writes (and `props.src` where the source requires it),
so the sequential mutations of the source equal this per-field record
update.  `src` models the presence of a `src` prop on the node. -/
def mobileRule (s : Snapshot) (src : Bool) (p : IntegrityProps) : IntegrityProps :=
  if s.isMobile || p.deviceTarget = some (.str "mobile") then
    { p with
      mobileQuality :=
        if src && isFalsy p.mobileQuality then
          some (.str (if s.isLowEnd then "low" else "medium"))
        else p.mobileQuality,
      touchDelay :=
        if isFalsy p.touchDelay then some (.str "0ms") else p.touchDelay,
      memoryLimit :=
        if isFalsy p.memoryLimit then
          some (.str (if s.isLowEnd then "25MB" else "50MB"))
        else p.memoryLimit,
      lazyThreshold :=
        if src && isFalsy p.lazyThreshold then some (.str "100px")
        else p.lazyThreshold }
  else p

/-- Block `// Auto-apply low-end device optimizations` (`src/enhance.js`
lines 243–263). -/
def lowEndRule (s : Snapshot) (p : IntegrityProps) : IntegrityProps :=
  if s.isLowEnd || p.deviceTarget = some (.str "low-end") then
    { p with
      performanceBudget :=
        if isFalsy p.performanceBudget then some (.str "32ms")
        else p.performanceBudget,
      gcHint :=
        if isFalsy p.gcHint then some (.str "aggressive") else p.gcHint,
      memoryLimit :=
        if isFalsy p.memoryLimit then some (.str "20MB") else p.memoryLimit }
  else p

/-- Block `// Auto-apply network optimizations` (`src/enhance.js` lines
266–281).  The `optimizedProps.loading = 'lazy'` DOM-prop write touches no
integrity attribute and is outside the modelled slice. -/
def networkRule (s : Snapshot) (src : Bool) (p : IntegrityProps) : IntegrityProps :=
  if s.slowNetwork || truthy p.networkAware then
    { p with
      lazyThreshold :=
        if src && isFalsy p.lazyThreshold then some (.str "200px")
        else p.lazyThreshold,
      mobileQuality :=
        if src && isFalsy p.mobileQuality then some (.str "low")
        else p.mobileQuality }
  else p

/-- Block `// Auto-apply high-end device optimizations` (`src/enhance.js`
lines 284–299).  Note the guard reads the live telemetry booleans, not the
battery state, and precedes the battery block in the source. -/
def highEndRule (s : Snapshot) (src : Bool) (p : IntegrityProps) : IntegrityProps :=
  if !s.isLowEnd && !s.isMobile && !(p.deviceTarget = some (.str "low-end")) then
    { p with
      performanceBudget :=
        if isFalsy p.performanceBudget then some (.str "60fps")
        else p.performanceBudget,
      mobileQuality :=
        if src && isFalsy p.mobileQuality then some (.str "high")
        else p.mobileQuality,
      memoryLimit :=
        if isFalsy p.memoryLimit then some (.str "200MB") else p.memoryLimit }
  else p

/-- The synchronous part of `applyMobileOptimizations` (`src/enhance.js`
lines 188–347) acting on the integrity-prop slice: the mobile, low-end,
network and high-end blocks in source order.  The battery block (lines
302–316) is NOT part of the returned value: its writes happen inside a
`navigator.getBattery().then(...)` callback, which runs only after the
function has already serialised `integrityProps` into
`data-integrity-props` (line 321) and returned, so they are dropped; it is
modelled separately as `batteryRuleLate`.  The `style` mutations touch no
integrity attribute and are outside the modelled slice. -/
def applyMobileOptimizations (s : Snapshot) (src : Bool) (p : IntegrityProps) : IntegrityProps :=
  highEndRule s src (networkRule s src (lowEndRule s (mobileRule s src p)))

/-- The body of the battery `.then` callback (`src/enhance.js` lines
303–312), modelled as if it ran synchronously on the prop map: guarded by a
truthy `battery-aware`, an available battery API, `level < 0.2` and
`!charging`.  In the real code its writes are unobservable (see
`applyMobileOptimizations`); it is embedded to show they would change
nothing even if they landed. -/
def batteryRuleLate (s : Snapshot) (src : Bool) (p : IntegrityProps) : IntegrityProps :=
  if truthy p.batteryAware && s.batterySupported &&
      decide (s.batteryLevel < 1/5) && !s.batteryCharging then
    { p with
      mobileQuality :=
        if src && isFalsy p.mobileQuality then some (.str "low")
        else p.mobileQuality,
      performanceBudget :=
        if isFalsy p.performanceBudget then some (.str "30fps")
        else p.performanceBudget }
  else p

/-- A recognised memory unit of the regex `/^(\d+)(MB|GB|KB)$/i` in
`useMemory` (`src/hooks.js` line 141). -/
inductive MemUnit where
  | mb | gb | kb
deriving DecidableEq

/-- Split a character list into its maximal leading run of decimal digits
and the remainder (the `(\d+)` group of the regex, which is greedy and can
never steal a unit letter since unit letters are not digits). -/
def takeDigits : List Char → List Char × List Char
  | [] => ([], [])
  | c :: cs =>
    if c.isDigit then
      let r := takeDigits cs
      (c :: r.1, r.2)
    else ([], c :: cs)

/-- The numeric value of a digit string, as computed by JavaScript
`parseInt` on the matched `(\d+)` group (idealised to exact integers). -/
def natOfDigits (l : List Char) : Nat :=
  l.foldl (fun a c => a * 10 + (c.toNat - 48)) 0

/-- Case-insensitive recognition of the `(MB|GB|KB)` group: exactly two
characters, the second `B`/`b`, the first `M`/`G`/`K` in either case. -/
def unitOf : List Char → Option MemUnit
  | [c1, c2] =>
    if c2 = 'B' ∨ c2 = 'b' then
      if c1 = 'M' ∨ c1 = 'm' then some .mb
      else if c1 = 'G' ∨ c1 = 'g' then some .gb
      else if c1 = 'K' ∨ c1 = 'k' then some .kb
      else none
    else none
  | _ => none

/-- `limit.match(/^(\d+)(MB|GB|KB)$/i)` (`src/hooks.js` line 141): at least
one leading digit and then exactly a unit suffix. -/
def memMatch (s : String) : Option (Nat × MemUnit) :=
  if (takeDigits s.data).1 = [] then none
  else
    match unitOf (takeDigits s.data).2 with
    | some u => some (natOfDigits (takeDigits s.data).1, u)
    | none => none

/-- The `parsedLimit` computation of `useMemory` (`src/hooks.js` lines
139–152): a falsy or non-string argument, or a string not matching the
regex, parses to the default `100`; otherwise GB multiplies by 1024, KB
divides by 1024 (JS float division, hence the rational result) and MB is
taken as-is. -/
def parsedLimit : Option JVal → ℚ
  | some (.str s) =>
    if s = "" then 100
    else
      match memMatch s with
      | none => 100
      | some (v, .mb) => (v : ℚ)
      | some (v, .gb) => (v : ℚ) * 1024
      | some (v, .kb) => (v : ℚ) / 1024
  | _ => 100

/-- Number of `console.warn` calls made by `validateMobileAttribute` for the
`memory-limit` attribute (`src/enhance.js` lines 102–108): exactly one when
the value is a string rejected by `/^\d+(MB|GB|KB)$/i`, zero otherwise (in
particular zero for every non-string value). -/
def validateMemoryLimitWarnings (v : JVal) : Nat :=
  match v with
  | .str s => if (memMatch s).isSome then 0 else 1
  | _ => 0

/-- JavaScript `Math.round (num / den)` on non-negative arguments:
`⌊num/den + 1/2⌋`, computed on naturals.  (At `den = 0` the JS quotient is
`Infinity`; no modelled call site reaches it.) -/
def jsRound (num den : Nat) : Nat := (2 * num + den) / (2 * den)

/-- The state published by `usePerformance` (`src/hooks.js` lines 225–230
and 252–257): rounded fps, render time in ms (JS
`Math.round(1000/fps*100)/100`), the `fps >= 30` flag, and the cumulative
frame-drop counter. -/
structure PerformanceInfo where
  fps : Nat
  renderTime : ℚ
  isPerformant : Bool
  frameDrops : Nat
deriving DecidableEq

/-- `const target = targetFPS || 60` (`src/hooks.js` line 238): an absent or
zero (falsy) argument defaults to 60. -/
def targetOf : Option Nat → Nat
  | none => 60
  | some n => if n = 0 then 60 else n

/-- One aggregation step of `measureFPS` (`src/hooks.js` lines 244–261),
taken when the 1-second window has elapsed: `frames` accumulated callbacks
over `elapsed` ms (≥ 1000 at the call site), `drops` the previous
frame-drop count.  `fps = Math.round(frames*1000/elapsed)`,
`renderTime = Math.round(1000/fps*100)/100`, `isPerformant = fps >= 30`,
and the drop counter increments when `fps < target * 0.8`. -/
def measureUpdate (targetFPS : Option Nat) (frames elapsed drops : Nat) : PerformanceInfo :=
  let target := targetOf targetFPS
  let fps := jsRound (frames * 1000) elapsed
  { fps := fps
    renderTime := (jsRound 100000 fps : ℚ) / 100
    isPerformant := decide (30 ≤ fps)
    frameDrops := if 5 * fps < 4 * target then drops + 1 else drops }

/-- The snapshot produced by `useDevice` (`src/hooks.js` lines 288–308). -/
structure DeviceInfo where
  isMobile : Bool
  isLowEnd : Bool
  pixelRatio : ℚ
  memoryGB : ℚ
  connectionType : String
deriving DecidableEq

/-- The mobile classification recomputed by `useDevice`'s resize handler
(`src/hooks.js` lines 312–313): viewport narrower than 768 px OR a mobile
user-agent. -/
def computeIsMobile (innerWidth : Nat) (uaMobile : Bool) : Bool :=
  decide (innerWidth < 768) || uaMobile

/-- The state-update function passed to `setDeviceInfo` by `handleResize`
(`src/hooks.js` lines 316–321): replace `isMobile` only when it actually
changed, otherwise return the previous object itself. -/
def handleResize (prev : DeviceInfo) (innerWidth : Nat) (uaMobile : Bool) : DeviceInfo :=
  let isMobile := computeIsMobile innerWidth uaMobile
  if prev.isMobile ≠ isMobile then { prev with isMobile := isMobile } else prev

/-- The battery slice read by `useAdaptiveFeatures` (`src/hooks.js` lines
342–347): level in `0..1` and the charging flag. -/
structure BatteryInfo where
  level : ℚ
  charging : Bool
deriving DecidableEq

/-- The three-tier performance level of an `OptimizationDirective`. -/
inductive PerfLevel where
  | low | medium | high
deriving DecidableEq

/-- The ordering `high > medium > low` as heights. -/
def PerfLevel.toNat : PerfLevel → Nat
  | .low => 0
  | .medium => 1
  | .high => 2

/-- The feature-flag record returned by `useAdaptiveFeatures`
(`src/hooks.js` lines 455–481). -/
structure AdaptiveFeatures where
  enableAnimations : Bool
  enableComplexLayouts : Bool
  enableHighResImages : Bool
  enableRealTimeUpdates : Bool
  performanceLevel : PerfLevel
deriving DecidableEq

/-- `const isLowBattery = batteryInfo.level < 0.2 && !batteryInfo.charging`
(`src/hooks.js` line 452). -/
def isLowBattery (b : BatteryInfo) : Bool :=
  decide (b.level < 1/5) && !b.charging

/-- `const isLowPerformance = !performanceInfo.isPerformant ||
performanceInfo.fps < 30` (`src/hooks.js` line 453). -/
def isLowPerformance (p : PerformanceInfo) : Bool :=
  !p.isPerformant || decide (p.fps < 30)

/-- The memoised body of `useAdaptiveFeatures` (`src/hooks.js` lines
451–481): low when low-end OR low-battery OR low-performance; medium when
mobile OR fps below 50; high otherwise. -/
def useAdaptiveFeatures (d : DeviceInfo) (p : PerformanceInfo) (b : BatteryInfo) : AdaptiveFeatures :=
  if d.isLowEnd || isLowBattery b || isLowPerformance p then
    ⟨false, false, false, false, .low⟩
  else if d.isMobile || decide (p.fps < 50) then
    ⟨true, false, false, true, .medium⟩
  else
    ⟨true, true, true, true, .high⟩

/-- One reading handed to `configureIntegrity`'s monitoring callback
(`src/enhance.js` lines 648–663): the observer's fps and the
`memoryUsage` heap fraction in `0..1`. -/
structure PerfData where
  fps : ℚ
  memoryUsage : ℚ
deriving DecidableEq

/-- The thresholds of `window.__INTEGRITY_CONFIG__` consulted by the
monitoring callback. -/
structure IntegrityConfig where
  cleanupThreshold : ℚ
  frameDropThreshold : ℚ
deriving DecidableEq

/-- The defaults set by `configureIntegrity` (`src/enhance.js` lines
634–644): `cleanupThreshold: 0.8`, `frameDropThreshold: 30`. -/
def defaultIntegrityConfig : IntegrityConfig := ⟨8/10, 30⟩

/-- `const shouldCleanup = data.fps < frameDropThreshold || data.memoryUsage
> cleanupThreshold` (`src/enhance.js` lines 651–652). -/
def shouldCleanup (cfg : IntegrityConfig) (d : PerfData) : Bool :=
  decide (d.fps < cfg.frameDropThreshold) || decide (cfg.cleanupThreshold < d.memoryUsage)

/-- Number of `triggerIntegrityCleanup` firings over a sample sequence:
the monitoring callback (`src/enhance.js` lines 648–663) fires once for
every sample satisfying `shouldCleanup`; it keeps no cooldown or
hysteresis state between samples. -/
def cleanupFirings (cfg : IntegrityConfig) : List PerfData → Nat
  | [] => 0
  | d :: ds => (if shouldCleanup cfg d then 1 else 0) + cleanupFirings cfg ds

/-! ### Concrete fixtures used by the claim theorems -/

/-- A snapshot of a mobile, not low-end device on a fast network. -/
def snapMobile : Snapshot := ⟨true, false, false, false, 1, false⟩

/-- The config `{device-target:"mobile"}` of spec scenario 1. -/
def cfgMobileTarget : IntegrityProps := { emptyProps with deviceTarget := some (.str "mobile") }

/-- A config whose `touch-delay` attribute is present but bound to the
empty string (a falsy value). -/
def cfgTouchEmpty : IntegrityProps := { emptyProps with touchDelay := some (.str "") }

/-- A config with every one of the six resolver-writable attributes
present and truthy. -/
def cfgAllExplicit : IntegrityProps :=
  ⟨some (.str "75MB"), some (.str "low"), some (.str "150px"),
   some (.str "45fps"), some (.str "normal"), some (.str "10ms"),
   none, none, none⟩

/-- The config `{battery-aware:true}` of spec scenario 3. -/
def cfgBatteryAware : IntegrityProps := { emptyProps with batteryAware := some (.bool true) }

/-- A desktop snapshot at 10% battery, not charging, battery API present. -/
def snapLowBattery : Snapshot := ⟨false, false, false, true, 1/10, false⟩

/-- The `[90,84,83,82]` memory-percentage samples of the spec's no-flap
scenario, as heap fractions at a healthy 60 fps. -/
def criticalSamples : List PerfData :=
  [⟨60, 90/100⟩, ⟨60, 84/100⟩, ⟨60, 83/100⟩, ⟨60, 82/100⟩]

/-! ### Field-preservation lemmas for the resolver rules

For each rule and each of the six writable attributes: either the rule
never writes the field, or its write is guarded by the field's own
JS-falsiness, so a truthy field passes through unchanged. -/

lemma mobileRule_memoryLimit (s : Snapshot) (src : Bool) (p : IntegrityProps)
    (h : truthy p.memoryLimit = true) : (mobileRule s src p).memoryLimit = p.memoryLimit := by
  unfold mobileRule; split <;> simp [isFalsy, h]

lemma mobileRule_mobileQuality (s : Snapshot) (src : Bool) (p : IntegrityProps)
    (h : truthy p.mobileQuality = true) : (mobileRule s src p).mobileQuality = p.mobileQuality := by
  unfold mobileRule; split <;> simp [isFalsy, h]

lemma mobileRule_lazyThreshold (s : Snapshot) (src : Bool) (p : IntegrityProps)
    (h : truthy p.lazyThreshold = true) : (mobileRule s src p).lazyThreshold = p.lazyThreshold := by
  unfold mobileRule; split <;> simp [isFalsy, h]

lemma mobileRule_touchDelay (s : Snapshot) (src : Bool) (p : IntegrityProps)
    (h : truthy p.touchDelay = true) : (mobileRule s src p).touchDelay = p.touchDelay := by
  unfold mobileRule; split <;> simp [isFalsy, h]

lemma mobileRule_performanceBudget (s : Snapshot) (src : Bool) (p : IntegrityProps) :
    (mobileRule s src p).performanceBudget = p.performanceBudget := by
  unfold mobileRule; split <;> rfl

lemma mobileRule_gcHint (s : Snapshot) (src : Bool) (p : IntegrityProps) :
    (mobileRule s src p).gcHint = p.gcHint := by
  unfold mobileRule; split <;> rfl

lemma lowEndRule_memoryLimit (s : Snapshot) (p : IntegrityProps)
    (h : truthy p.memoryLimit = true) : (lowEndRule s p).memoryLimit = p.memoryLimit := by
  unfold lowEndRule; split <;> simp [isFalsy, h]

lemma lowEndRule_performanceBudget (s : Snapshot) (p : IntegrityProps)
    (h : truthy p.performanceBudget = true) :
    (lowEndRule s p).performanceBudget = p.performanceBudget := by
  unfold lowEndRule; split <;> simp [isFalsy, h]

lemma lowEndRule_gcHint (s : Snapshot) (p : IntegrityProps)
    (h : truthy p.gcHint = true) : (lowEndRule s p).gcHint = p.gcHint := by
  unfold lowEndRule; split <;> simp [isFalsy, h]

lemma lowEndRule_mobileQuality (s : Snapshot) (p : IntegrityProps) :
    (lowEndRule s p).mobileQuality = p.mobileQuality := by
  unfold lowEndRule; split <;> rfl

lemma lowEndRule_lazyThreshold (s : Snapshot) (p : IntegrityProps) :
    (lowEndRule s p).lazyThreshold = p.lazyThreshold := by
  unfold lowEndRule; split <;> rfl

lemma lowEndRule_touchDelay (s : Snapshot) (p : IntegrityProps) :
    (lowEndRule s p).touchDelay = p.touchDelay := by
  unfold lowEndRule; split <;> rfl

lemma networkRule_lazyThreshold (s : Snapshot) (src : Bool) (p : IntegrityProps)
    (h : truthy p.lazyThreshold = true) : (networkRule s src p).lazyThreshold = p.lazyThreshold := by
  unfold networkRule; split <;> simp [isFalsy, h]

lemma networkRule_mobileQuality (s : Snapshot) (src : Bool) (p : IntegrityProps)
    (h : truthy p.mobileQuality = true) : (networkRule s src p).mobileQuality = p.mobileQuality := by
  unfold networkRule; split <;> simp [isFalsy, h]

lemma networkRule_memoryLimit (s : Snapshot) (src : Bool) (p : IntegrityProps) :
    (networkRule s src p).memoryLimit = p.memoryLimit := by
  unfold networkRule; split <;> rfl

lemma networkRule_performanceBudget (s : Snapshot) (src : Bool) (p : IntegrityProps) :
    (networkRule s src p).performanceBudget = p.performanceBudget := by
  unfold networkRule; split <;> rfl

lemma networkRule_gcHint (s : Snapshot) (src : Bool) (p : IntegrityProps) :
    (networkRule s src p).gcHint = p.gcHint := by
  unfold networkRule; split <;> rfl

lemma networkRule_touchDelay (s : Snapshot) (src : Bool) (p : IntegrityProps) :
    (networkRule s src p).touchDelay = p.touchDelay := by
  unfold networkRule; split <;> rfl

lemma highEndRule_performanceBudget (s : Snapshot) (src : Bool) (p : IntegrityProps)
    (h : truthy p.performanceBudget = true) :
    (highEndRule s src p).performanceBudget = p.performanceBudget := by
  unfold highEndRule; split <;> simp [isFalsy, h]

lemma highEndRule_mobileQuality (s : Snapshot) (src : Bool) (p : IntegrityProps)
    (h : truthy p.mobileQuality = true) : (highEndRule s src p).mobileQuality = p.mobileQuality := by
  unfold highEndRule; split <;> simp [isFalsy, h]

lemma highEndRule_memoryLimit (s : Snapshot) (src : Bool) (p : IntegrityProps)
    (h : truthy p.memoryLimit = true) : (highEndRule s src p).memoryLimit = p.memoryLimit := by
  unfold highEndRule; split <;> simp [isFalsy, h]

lemma highEndRule_lazyThreshold (s : Snapshot) (src : Bool) (p : IntegrityProps) :
    (highEndRule s src p).lazyThreshold = p.lazyThreshold := by
  unfold highEndRule; split <;> rfl

lemma highEndRule_gcHint (s : Snapshot) (src : Bool) (p : IntegrityProps) :
    (highEndRule s src p).gcHint = p.gcHint := by
  unfold highEndRule; split <;> rfl

lemma highEndRule_touchDelay (s : Snapshot) (src : Bool) (p : IntegrityProps) :
    (highEndRule s src p).touchDelay = p.touchDelay := by
  unfold highEndRule; split <;> rfl

lemma apply_memoryLimit_of_truthy (s : Snapshot) (src : Bool) (p : IntegrityProps)
    (h : truthy p.memoryLimit = true) :
    (applyMobileOptimizations s src p).memoryLimit = p.memoryLimit := by
  unfold applyMobileOptimizations
  have e1 := mobileRule_memoryLimit s src p h
  have t1 : truthy (mobileRule s src p).memoryLimit = true := by rw [e1]; exact h
  have e2 := lowEndRule_memoryLimit s _ t1
  have t2 : truthy (lowEndRule s (mobileRule s src p)).memoryLimit = true := by rw [e2]; exact t1
  have e3 := networkRule_memoryLimit s src (lowEndRule s (mobileRule s src p))
  have t3 : truthy (networkRule s src (lowEndRule s (mobileRule s src p))).memoryLimit = true := by
    rw [e3]; exact t2
  rw [highEndRule_memoryLimit s src _ t3, e3, e2, e1]

lemma apply_mobileQuality_of_truthy (s : Snapshot) (src : Bool) (p : IntegrityProps)
    (h : truthy p.mobileQuality = true) :
    (applyMobileOptimizations s src p).mobileQuality = p.mobileQuality := by
  unfold applyMobileOptimizations
  have e1 := mobileRule_mobileQuality s src p h
  have t1 : truthy (mobileRule s src p).mobileQuality = true := by rw [e1]; exact h
  have e2 := lowEndRule_mobileQuality s (mobileRule s src p)
  have t2 : truthy (lowEndRule s (mobileRule s src p)).mobileQuality = true := by rw [e2]; exact t1
  have e3 := networkRule_mobileQuality s src _ t2
  have t3 : truthy (networkRule s src (lowEndRule s (mobileRule s src p))).mobileQuality = true := by
    rw [e3]; exact t2
  rw [highEndRule_mobileQuality s src _ t3, e3, e2, e1]

lemma apply_lazyThreshold_of_truthy (s : Snapshot) (src : Bool) (p : IntegrityProps)
    (h : truthy p.lazyThreshold = true) :
    (applyMobileOptimizations s src p).lazyThreshold = p.lazyThreshold := by
  unfold applyMobileOptimizations
  have e1 := mobileRule_lazyThreshold s src p h
  have t1 : truthy (mobileRule s src p).lazyThreshold = true := by rw [e1]; exact h
  have e2 := lowEndRule_lazyThreshold s (mobileRule s src p)
  have t2 : truthy (lowEndRule s (mobileRule s src p)).lazyThreshold = true := by rw [e2]; exact t1
  have e3 := networkRule_lazyThreshold s src _ t2
  rw [highEndRule_lazyThreshold s src _, e3, e2, e1]

lemma apply_performanceBudget_of_truthy (s : Snapshot) (src : Bool) (p : IntegrityProps)
    (h : truthy p.performanceBudget = true) :
    (applyMobileOptimizations s src p).performanceBudget = p.performanceBudget := by
  unfold applyMobileOptimizations
  have e1 := mobileRule_performanceBudget s src p
  have t1 : truthy (mobileRule s src p).performanceBudget = true := by rw [e1]; exact h
  have e2 := lowEndRule_performanceBudget s _ t1
  have t2 : truthy (lowEndRule s (mobileRule s src p)).performanceBudget = true := by
    rw [e2]; exact t1
  have e3 := networkRule_performanceBudget s src (lowEndRule s (mobileRule s src p))
  have t3 : truthy (networkRule s src (lowEndRule s (mobileRule s src p))).performanceBudget = true := by
    rw [e3]; exact t2
  rw [highEndRule_performanceBudget s src _ t3, e3, e2, e1]

lemma apply_gcHint_of_truthy (s : Snapshot) (src : Bool) (p : IntegrityProps)
    (h : truthy p.gcHint = true) :
    (applyMobileOptimizations s src p).gcHint = p.gcHint := by
  unfold applyMobileOptimizations
  have e1 := mobileRule_gcHint s src p
  have t1 : truthy (mobileRule s src p).gcHint = true := by rw [e1]; exact h
  have e2 := lowEndRule_gcHint s _ t1
  have e3 := networkRule_gcHint s src (lowEndRule s (mobileRule s src p))
  rw [highEndRule_gcHint s src _, e3, e2, e1]

lemma apply_touchDelay_of_truthy (s : Snapshot) (src : Bool) (p : IntegrityProps)
    (h : truthy p.touchDelay = true) :
    (applyMobileOptimizations s src p).touchDelay = p.touchDelay := by
  unfold applyMobileOptimizations
  have e1 := mobileRule_touchDelay s src p h
  have e2 := lowEndRule_touchDelay s (mobileRule s src p)
  have e3 := networkRule_touchDelay s src (lowEndRule s (mobileRule s src p))
  rw [highEndRule_touchDelay s src _, e3, e2, e1]

/-- Claim C1 (counterexample): a config whose `touch-delay` attribute IS
explicitly present, but bound to the (falsy) empty string, is overwritten
to `"0ms"` by the mobile rule — refuting "any field explicitly present in
the config is never overwritten". -/
theorem C1_present_falsy_field_overwritten :
    cfgTouchEmpty.touchDelay = some (.str "") ∧
    (applyMobileOptimizations snapMobile false cfgTouchEmpty).touchDelay = some (.str "0ms") := by
  decide

/-- Claim C1 (amended): any of the six fields (memory-limit,
mobile-quality, lazy-threshold, performance-budget, gc-hint, touch-delay)
present in the config with a JS-truthy value is never overwritten by the
mobile, low-end, network or high-end rule of the resolver; the resolved
directive carries the config's value unchanged.  (A field present with a
falsy value — empty string, `false`, `0` — is treated as absent.) -/
theorem C1_truthy_config_fields_never_overwritten :
    ∀ (p : IntegrityProps) (s : Snapshot) (src : Bool),
    (truthy p.memoryLimit = true →
      (applyMobileOptimizations s src p).memoryLimit = p.memoryLimit) ∧
    (truthy p.mobileQuality = true →
      (applyMobileOptimizations s src p).mobileQuality = p.mobileQuality) ∧
    (truthy p.lazyThreshold = true →
      (applyMobileOptimizations s src p).lazyThreshold = p.lazyThreshold) ∧
    (truthy p.performanceBudget = true →
      (applyMobileOptimizations s src p).performanceBudget = p.performanceBudget) ∧
    (truthy p.gcHint = true →
      (applyMobileOptimizations s src p).gcHint = p.gcHint) ∧
    (truthy p.touchDelay = true →
      (applyMobileOptimizations s src p).touchDelay = p.touchDelay) := by
  intro p s src
  exact ⟨apply_memoryLimit_of_truthy s src p, apply_mobileQuality_of_truthy s src p,
    apply_lazyThreshold_of_truthy s src p, apply_performanceBudget_of_truthy s src p,
    apply_gcHint_of_truthy s src p, apply_touchDelay_of_truthy s src p⟩

/-- Witness for C1: a config with all six fields truthy, resolved on a
mobile snapshot, keeps every one of them. -/
theorem C1_truthy_config_fields_never_overwritten_witness :
    (applyMobileOptimizations snapMobile true cfgAllExplicit).memoryLimit = cfgAllExplicit.memoryLimit ∧
    (applyMobileOptimizations snapMobile true cfgAllExplicit).mobileQuality = cfgAllExplicit.mobileQuality ∧
    (applyMobileOptimizations snapMobile true cfgAllExplicit).lazyThreshold = cfgAllExplicit.lazyThreshold ∧
    (applyMobileOptimizations snapMobile true cfgAllExplicit).performanceBudget = cfgAllExplicit.performanceBudget ∧
    (applyMobileOptimizations snapMobile true cfgAllExplicit).gcHint = cfgAllExplicit.gcHint ∧
    (applyMobileOptimizations snapMobile true cfgAllExplicit).touchDelay = cfgAllExplicit.touchDelay := by
  have h := C1_truthy_config_fields_never_overwritten cfgAllExplicit snapMobile true
  exact ⟨h.1 (by decide), h.2.1 (by decide), h.2.2.1 (by decide),
    h.2.2.2.1 (by decide), h.2.2.2.2.1 (by decide), h.2.2.2.2.2 (by decide)⟩

/-- Claim C2 (counterexample): resolving `{device-target:"mobile"}` on a
mobile, not-low-end snapshot for a node WITHOUT a `src` prop leaves
`mobile-quality` and `lazy-threshold` unset (the mobile rule's quality and
lazy-threshold writes are guarded by `props.src`), so the directive does
not carry `imageQuality:"medium"`. -/
theorem C2_no_src_no_image_quality :
    (applyMobileOptimizations snapMobile false cfgMobileTarget).mobileQuality = none ∧
    (applyMobileOptimizations snapMobile false cfgMobileTarget).lazyThreshold = none ∧
    ¬(applyMobileOptimizations snapMobile false cfgMobileTarget).mobileQuality
        = some (.str "medium") := by
  decide

/-- Claim C2 (amended): for every snapshot with `isMobile` and not
`isLowEnd`, resolving `{device-target:"mobile"}` for a node WITH a `src`
prop yields `mobile-quality "medium"`, `memory-limit "50MB"` (which the
memory parser reads as 50 MB) and `lazy-threshold "100px"`; without a
`src` prop only the memory limit (and touch delay) is still set. -/
theorem C2_mobile_directive_with_src :
    ∀ s : Snapshot, s.isMobile = true → s.isLowEnd = false →
    (applyMobileOptimizations s true cfgMobileTarget).mobileQuality = some (.str "medium") ∧
    (applyMobileOptimizations s true cfgMobileTarget).memoryLimit = some (.str "50MB") ∧
    (applyMobileOptimizations s true cfgMobileTarget).lazyThreshold = some (.str "100px") ∧
    parsedLimit (some (.str "50MB")) = 50 ∧
    (applyMobileOptimizations s false cfgMobileTarget).memoryLimit = some (.str "50MB") := by
  rintro ⟨im, ile, sn, bs, bl, bc⟩ h1 h2
  obtain rfl : im = true := h1
  obtain rfl : ile = false := h2
  cases sn <;> exact ⟨rfl, rfl, rfl, by decide, rfl⟩

/-- Witness for C2: the amended statement at the concrete mobile snapshot. -/
theorem C2_mobile_directive_with_src_witness :
    (applyMobileOptimizations snapMobile true cfgMobileTarget).mobileQuality = some (.str "medium") ∧
    (applyMobileOptimizations snapMobile true cfgMobileTarget).memoryLimit = some (.str "50MB") ∧
    (applyMobileOptimizations snapMobile true cfgMobileTarget).lazyThreshold = some (.str "100px") ∧
    parsedLimit (some (.str "50MB")) = 50 ∧
    (applyMobileOptimizations snapMobile false cfgMobileTarget).memoryLimit = some (.str "50MB") :=
  C2_mobile_directive_with_src snapMobile rfl rfl

/-- `jsRound` is JavaScript `Math.round` of the exact rational quotient. -/
lemma jsRound_eq_floor (num den : Nat) (h : 0 < den) :
    jsRound num den = ⌊(num : ℚ) / den + 1/2⌋₊ := by
  unfold jsRound
  have hq : (num : ℚ) / den + 1/2 = ((2 * num + den : ℕ) : ℚ) / ((2 * den : ℕ) : ℚ) := by
    have hd : (den : ℚ) ≠ 0 := by positivity
    push_cast
    field_simp
    ring
  rw [hq, Nat.floor_div_nat, Nat.floor_natCast]

/-- Claim C3 (counterexample): with the default target of 60, a window of
40 frames over 1000 ms is reported performant by the code
(`isPerformant = fps >= 30`), although `fps >= 0.75 * targetFps` (i.e.
`40 >= 45`) is false — refuting the claimed isPerformant formula. -/
theorem C3_isPerformant_not_three_quarters_target :
    (measureUpdate none 40 1000 0).isPerformant = true ∧
    ¬(4 * (measureUpdate none 40 1000 0).fps ≥ 3 * targetOf none) := by
  decide

/-- Claim C3 (amended): the per-second measurement step computes
`fps = Math.round(frames * 1000 / elapsedMs)`, `renderTimeMs =
Math.round(1000 / fps * 100) / 100`, and reports `isPerformant = (fps >=
30)` — a fixed threshold independent of the target frame rate; the target
(defaulting to 60 when absent) is used only to count a frame drop when
`fps < 0.8 * targetFps`. -/
theorem C3_measure_step_formulas :
    ∀ (t : Option Nat) (frames elapsed drops : Nat), 0 < elapsed →
    (measureUpdate t frames elapsed drops).fps = ⌊(frames : ℚ) * 1000 / elapsed + 1/2⌋₊ ∧
    ((measureUpdate t frames elapsed drops).isPerformant = true ↔
      30 ≤ (measureUpdate t frames elapsed drops).fps) ∧
    (0 < (measureUpdate t frames elapsed drops).fps →
      (measureUpdate t frames elapsed drops).renderTime =
        (⌊(1000 : ℚ) / (measureUpdate t frames elapsed drops).fps * 100 + 1/2⌋₊ : ℚ) / 100) ∧
    ((measureUpdate t frames elapsed drops).frameDrops =
      if ((measureUpdate t frames elapsed drops).fps : ℚ) < 4/5 * targetOf t
      then drops + 1 else drops) ∧
    (∀ t' : Option Nat, (measureUpdate t' frames elapsed drops).isPerformant =
      (measureUpdate t frames elapsed drops).isPerformant) ∧
    targetOf none = 60 := by
  intro t frames elapsed drops h
  refine ⟨?_, ?_, ?_, ?_, fun t' => rfl, rfl⟩
  · show jsRound (frames * 1000) elapsed = _
    rw [jsRound_eq_floor _ _ h]
    congr 2
    push_cast
    ring
  · show decide (30 ≤ jsRound (frames * 1000) elapsed) = true ↔ _
    simp [measureUpdate]
  · intro hf
    have hf' : 0 < jsRound (frames * 1000) elapsed := hf
    show (jsRound 100000 (jsRound (frames * 1000) elapsed) : ℚ) / 100 =
      (⌊(1000 : ℚ) / (jsRound (frames * 1000) elapsed : ℚ) * 100 + 1/2⌋₊ : ℚ) / 100
    rw [jsRound_eq_floor 100000 _ hf']
    have harg : ((100000 : ℕ) : ℚ) / (jsRound (frames * 1000) elapsed : ℚ) =
        (1000 : ℚ) / (jsRound (frames * 1000) elapsed : ℚ) * 100 := by
      push_cast
      ring
    rw [harg]
  · show (if 5 * jsRound (frames * 1000) elapsed < 4 * targetOf t then drops + 1 else drops) = _
    have key : (5 * jsRound (frames * 1000) elapsed < 4 * targetOf t) ↔
        ((jsRound (frames * 1000) elapsed : ℚ) < 4/5 * targetOf t) := by
      constructor
      · intro hh
        have hc : ((5 * jsRound (frames * 1000) elapsed : ℕ) : ℚ)
            < ((4 * targetOf t : ℕ) : ℚ) := by exact_mod_cast hh
        push_cast at hc
        linarith
      · intro hh
        have hc : (5 * (jsRound (frames * 1000) elapsed : ℚ)) < 4 * targetOf t := by linarith
        exact_mod_cast hc
    split_ifs with ha hb hb
    · rfl
    · exact absurd (key.mp ha) hb
    · exact absurd (key.mpr hb) ha
    · rfl

/-- Witness for C3: the amended statement at `targetFPS` absent, 40 frames
over 1000 ms, no prior drops. -/
theorem C3_measure_step_formulas_witness :
    (measureUpdate none 40 1000 0).fps = ⌊(40 : ℚ) * 1000 / 1000 + 1/2⌋₊ ∧
    ((measureUpdate none 40 1000 0).isPerformant = true ↔
      30 ≤ (measureUpdate none 40 1000 0).fps) ∧
    (0 < (measureUpdate none 40 1000 0).fps →
      (measureUpdate none 40 1000 0).renderTime =
        (⌊(1000 : ℚ) / (measureUpdate none 40 1000 0).fps * 100 + 1/2⌋₊ : ℚ) / 100) ∧
    ((measureUpdate none 40 1000 0).frameDrops =
      if ((measureUpdate none 40 1000 0).fps : ℚ) < 4/5 * targetOf none then 0 + 1 else 0) ∧
    (∀ t' : Option Nat, (measureUpdate t' 40 1000 0).isPerformant =
      (measureUpdate none 40 1000 0).isPerformant) ∧
    targetOf none = 60 := by
  have h := C3_measure_step_formulas none 40 1000 0 (by norm_num)
  exact h

/-- Claim C4: `performanceLevel` is a monotone function of the degradation
signals: with the mobile classification fixed and the frame rate not
increased, making any of the three signals (low-end, low-battery,
low-performance) strictly tighter can only move the level toward `low` on
the ordering `high > medium > low`.  The specific instance of the claim —
snapshot B equal to A except `isLowEnd` flipped to `true` — is the case
`d' = {d with isLowEnd := true}`, `p' = p`, `b' = b`. -/
theorem C4_performanceLevel_monotone :
    ∀ (d d' : DeviceInfo) (p p' : PerformanceInfo) (b b' : BatteryInfo),
    d'.isMobile = d.isMobile → p'.fps ≤ p.fps →
    (d.isLowEnd = true → d'.isLowEnd = true) →
    (isLowBattery b = true → isLowBattery b' = true) →
    (isLowPerformance p = true → isLowPerformance p' = true) →
    (useAdaptiveFeatures d' p' b').performanceLevel.toNat ≤
      (useAdaptiveFeatures d p b).performanceLevel.toNat := by
  intro d d' p p' b b' hm hf h1 h2 h3
  unfold useAdaptiveFeatures
  by_cases hB1 : (d'.isLowEnd || isLowBattery b' || isLowPerformance p') = true
  · rw [if_pos hB1]
    exact Nat.zero_le _
  · have hA1 : ¬((d.isLowEnd || isLowBattery b || isLowPerformance p) = true) := by
      intro hA
      apply hB1
      simp only [Bool.or_eq_true] at hA ⊢
      tauto
    rw [if_neg hA1, if_neg hB1]
    by_cases hB2 : (d'.isMobile || decide (p'.fps < 50)) = true
    · rw [if_pos hB2]
      split_ifs
      · exact le_refl _
      · decide
    · have hA2 : ¬((d.isMobile || decide (p.fps < 50)) = true) := by
        intro hA
        apply hB2
        simp only [Bool.or_eq_true, decide_eq_true_eq] at hA ⊢
        rcases hA with h | h
        · exact Or.inl (hm.trans h)
        · exact Or.inr (lt_of_le_of_lt hf h)
      rw [if_neg hB2, if_neg hA2]

/-- Witness for C4: flipping `isLowEnd` to true on a healthy desktop
snapshot drops the level (here from `high` to `low`), never raises it. -/
theorem C4_performanceLevel_monotone_witness :
    (useAdaptiveFeatures ⟨false, true, 1, 4, "4g"⟩ ⟨60, 1000/60, true, 0⟩
        ⟨1, false⟩).performanceLevel.toNat ≤
      (useAdaptiveFeatures ⟨false, false, 1, 4, "4g"⟩ ⟨60, 1000/60, true, 0⟩
        ⟨1, false⟩).performanceLevel.toNat :=
  C4_performanceLevel_monotone ⟨false, false, 1, 4, "4g"⟩ ⟨false, true, 1, 4, "4g"⟩
    ⟨60, 1000/60, true, 0⟩ ⟨60, 1000/60, true, 0⟩ ⟨1, false⟩ ⟨1, false⟩
    rfl (le_refl _) (fun _ => rfl) (fun h => h) (fun h => h)

/-- Claim C5 (counterexample): a non-string `memory-limit` value (the
number 50) is unrecognized input — the parser falls back to the default
100 — yet the validator emits zero warnings, not exactly one. -/
theorem C5_nonstring_input_no_warning :
    parsedLimit (some (.num 50)) = 100 ∧
    validateMemoryLimitWarnings (.num 50) = 0 ∧ (0 : Nat) ≠ 1 :=
  ⟨rfl, rfl, by decide⟩

/-- Claim C5 (amended): the parser maps `"100MB"` to 100 and `"1GB"` to
1024; every malformed or non-string input parses to the documented default
100 and never throws (the parse is total); the development-mode validator
emits exactly one warning for a malformed string value and none for a
non-string value. -/
theorem C5_memory_parser_defaults_and_warnings :
    parsedLimit (some (.str "100MB")) = 100 ∧
    parsedLimit (some (.str "1GB")) = 1024 ∧
    parsedLimit (some (.str "bogus")) = 100 ∧
    validateMemoryLimitWarnings (.str "bogus") = 1 ∧
    (∀ s : String, memMatch s = none →
      parsedLimit (some (.str s)) = 100 ∧ validateMemoryLimitWarnings (.str s) = 1) ∧
    (∀ v : JVal, (∀ s : String, v ≠ .str s) →
      parsedLimit (some v) = 100 ∧ validateMemoryLimitWarnings v = 0) := by
  refine ⟨by decide, ?_, by decide, by decide, ?_, ?_⟩
  · show ((1 : ℕ) : ℚ) * 1024 = 1024
    norm_num
  · intro s h
    exact ⟨by simp [parsedLimit, h], by simp [validateMemoryLimitWarnings, h]⟩
  · intro v hv
    cases v with
    | str s => exact absurd rfl (hv s)
    | bool b => exact ⟨rfl, rfl⟩
    | num q => exact ⟨rfl, rfl⟩

/-- Witness for C5: the malformed string `"banana"` parses to the default
with one warning; the non-string `false` parses to the default with none. -/
theorem C5_memory_parser_defaults_and_warnings_witness :
    (parsedLimit (some (.str "banana")) = 100 ∧
      validateMemoryLimitWarnings (.str "banana") = 1) ∧
    (parsedLimit (some (.bool false)) = 100 ∧
      validateMemoryLimitWarnings (.bool false) = 0) :=
  ⟨C5_memory_parser_defaults_and_warnings.2.2.2.2.1 "banana" (by decide),
   C5_memory_parser_defaults_and_warnings.2.2.2.2.2 (.bool false) (fun _ h => JVal.noConfusion h)⟩

/-- Claim C6 (counterexample): the four memory samples `[90%,84%,83%,82%]`
all exceed the 0.8 cleanup threshold, and the monitoring callback fires a
cleanup for each of them — four firings, not exactly one. -/
theorem C6_four_critical_samples_fire_four_cleanups :
    cleanupFirings defaultIntegrityConfig criticalSamples = 4 ∧
    cleanupFirings defaultIntegrityConfig criticalSamples ≠ 1 := by
  have h : cleanupFirings defaultIntegrityConfig criticalSamples = 4 := by
    norm_num [cleanupFirings, shouldCleanup, defaultIntegrityConfig, criticalSamples]
  exact ⟨h, by rw [h]; decide⟩

/-- Claim C6 (amended): the monitoring callback keeps no cooldown or
hysteresis state: every sample that trips the cleanup condition fires
exactly one cleanup, so a run of n critical samples fires n cleanups
(repeated critical samples are re-fired, not coalesced). -/
theorem C6_cleanup_fires_once_per_critical_sample :
    ∀ (cfg : IntegrityConfig) (samples : List PerfData),
    (∀ d ∈ samples, shouldCleanup cfg d = true) →
    cleanupFirings cfg samples = samples.length := by
  intro cfg samples
  induction samples with
  | nil => intro _; rfl
  | cons d ds ih =>
    intro h
    have hd : shouldCleanup cfg d = true := h d (List.mem_cons_self d ds)
    have hrest := ih (fun x hx => h x (List.mem_cons_of_mem d hx))
    rw [List.length_cons, ← hrest]
    show (if shouldCleanup cfg d then 1 else 0) + cleanupFirings cfg ds =
      cleanupFirings cfg ds + 1
    rw [if_pos hd]
    omega

/-- Witness for C6: on the concrete all-critical sample run, firings equal
the number of samples. -/
theorem C6_cleanup_fires_once_per_critical_sample_witness :
    cleanupFirings defaultIntegrityConfig criticalSamples = criticalSamples.length :=
  C6_cleanup_fires_once_per_critical_sample defaultIntegrityConfig criticalSamples (by
    intro d hd
    simp only [criticalSamples, List.mem_cons, List.not_mem_nil, or_false] at hd
    rcases hd with rfl | rfl | rfl | rfl <;>
      norm_num [shouldCleanup, defaultIntegrityConfig])

/-- Claim C7 (code defect): for the config `{battery-aware:true}` on a
desktop snapshot at 10% battery, not charging, the resolved directive has
`mobile-quality "high"` and `performance-budget "60fps"`, not the claimed
`low` / 30 fps: the battery block's writes happen in an asynchronous
`.then` callback after the props were already serialised and returned, and
even were they applied synchronously (`batteryRuleLate`), the earlier
high-end rule has already filled both fields, so they change nothing. -/
theorem C7_battery_rule_has_no_effect :
    (applyMobileOptimizations snapLowBattery true cfgBatteryAware).mobileQuality
        = some (.str "high") ∧
    (applyMobileOptimizations snapLowBattery true cfgBatteryAware).performanceBudget
        = some (.str "60fps") ∧
    batteryRuleLate snapLowBattery true
        (applyMobileOptimizations snapLowBattery true cfgBatteryAware) =
      applyMobileOptimizations snapLowBattery true cfgBatteryAware := by
  refine ⟨by decide, by decide, ?_⟩
  have h1 : (applyMobileOptimizations snapLowBattery true cfgBatteryAware).mobileQuality
      = some (.str "high") := by decide
  have h2 : (applyMobileOptimizations snapLowBattery true cfgBatteryAware).performanceBudget
      = some (.str "60fps") := by decide
  unfold batteryRuleLate
  split
  · simp [isFalsy, truthy, h1, h2]
    rw [← h1, ← h2]
  · rfl

/-- Claim C8: the resolver is deterministic and pure in its inputs —
structurally equal snapshot, `src` flag and config always produce
structurally equal directives (two-run determinism; in the embedding the
resolver is a function of exactly these inputs and nothing else). -/
theorem C8_resolver_deterministic :
    ∀ (s₁ s₂ : Snapshot) (src₁ src₂ : Bool) (p₁ p₂ : IntegrityProps),
    s₁ = s₂ → src₁ = src₂ → p₁ = p₂ →
    applyMobileOptimizations s₁ src₁ p₁ = applyMobileOptimizations s₂ src₂ p₂ := by
  intro s₁ s₂ src₁ src₂ p₁ p₂ h1 h2 h3
  rw [h1, h2, h3]

/-- Witness for C8: two runs on byte-identical concrete inputs agree. -/
theorem C8_resolver_deterministic_witness :
    applyMobileOptimizations snapMobile true cfgMobileTarget =
      applyMobileOptimizations snapMobile true cfgMobileTarget :=
  C8_resolver_deterministic snapMobile snapMobile true true cfgMobileTarget cfgMobileTarget
    rfl rfl rfl

/-- Claim C9: when a resize event's recomputed mobile classification equals
the previous one, `useDevice`'s updater returns the previous snapshot
object itself (in the embedding: the function returns its argument
unchanged), so consumers can skip recomputation. -/
theorem C9_resize_same_classification_returns_prev :
    ∀ (prev : DeviceInfo) (w : Nat) (ua : Bool),
    computeIsMobile w ua = prev.isMobile → handleResize prev w ua = prev := by
  intro prev w ua h
  unfold handleResize
  simp [h]

/-- Witness for C9: a 500-px-wide viewport reclassifies as mobile, equal to
the previous classification, and the snapshot is returned unchanged. -/
theorem C9_resize_same_classification_returns_prev_witness :
    handleResize ⟨true, false, 2, 4, "4g"⟩ 500 false = ⟨true, false, 2, 4, "4g"⟩ :=
  C9_resize_same_classification_returns_prev ⟨true, false, 2, 4, "4g"⟩ 500 false (by decide)

/-- The greedy digit scan splits a digit run followed by a non-digit
remainder exactly at the boundary. -/
lemma takeDigits_append_unit (d : List Char) (u : Char) (cs : List Char)
    (hd : ∀ c ∈ d, c.isDigit = true) (hu : u.isDigit = false) :
    takeDigits (d ++ u :: cs) = (d, u :: cs) := by
  induction d with
  | nil => simp [takeDigits, hu]
  | cons c d' ih =>
    have hc : c.isDigit = true := hd c (List.mem_cons_self c d')
    have ih' := ih (fun x hx => hd x (List.mem_cons_of_mem c hx))
    simp [takeDigits, hc, ih']

/-- A string built from a nonempty character list is not the empty string. -/
lemma string_mk_append_unit_ne_empty (d : List Char) (u1 u2 : Char) :
    String.mk (d ++ [u1, u2]) ≠ "" := by
  intro hcon
  have h2 : d ++ [u1, u2] = ([] : List Char) := by
    have he : ("" : String).data = [] := rfl
    rw [← he]
    exact congrArg String.data hcon
  simp at h2

/-- Claim C10: the memory-limit parse of `useMemory`: an absent, boolean,
numeric, or regex-rejected string argument parses to exactly 100 MB; a
matching `<digits>MB` string parses to its integer value, `<digits>GB`
multiplies it by 1024, and `<digits>KB` divides it by 1024; the parse is a
total function (it never throws). -/
theorem C10_memory_limit_parse :
    parsedLimit none = 100 ∧
    (∀ b : Bool, parsedLimit (some (.bool b)) = 100) ∧
    (∀ q : ℚ, parsedLimit (some (.num q)) = 100) ∧
    (∀ s : String, memMatch s = none → parsedLimit (some (.str s)) = 100) ∧
    (∀ d : List Char, d ≠ [] → (∀ c ∈ d, c.isDigit = true) →
      parsedLimit (some (.str (String.mk (d ++ ['M', 'B'])))) = (natOfDigits d : ℚ) ∧
      parsedLimit (some (.str (String.mk (d ++ ['G', 'B'])))) = (natOfDigits d : ℚ) * 1024 ∧
      parsedLimit (some (.str (String.mk (d ++ ['K', 'B'])))) = (natOfDigits d : ℚ) / 1024) := by
  refine ⟨rfl, fun b => rfl, fun q => rfl, ?_, ?_⟩
  · intro s h
    simp [parsedLimit, h]
  · intro d hne hd
    have hM := takeDigits_append_unit d 'M' ['B'] hd (by decide)
    have hG := takeDigits_append_unit d 'G' ['B'] hd (by decide)
    have hK := takeDigits_append_unit d 'K' ['B'] hd (by decide)
    have hmM : memMatch (String.mk (d ++ ['M', 'B'])) = some (natOfDigits d, .mb) := by
      unfold memMatch
      rw [show (String.mk (d ++ ['M', 'B'])).data = d ++ ['M', 'B'] from rfl, hM]
      simp [hne, unitOf]
    have hmG : memMatch (String.mk (d ++ ['G', 'B'])) = some (natOfDigits d, .gb) := by
      unfold memMatch
      rw [show (String.mk (d ++ ['G', 'B'])).data = d ++ ['G', 'B'] from rfl, hG]
      simp [hne, unitOf]
    have hmK : memMatch (String.mk (d ++ ['K', 'B'])) = some (natOfDigits d, .kb) := by
      unfold memMatch
      rw [show (String.mk (d ++ ['K', 'B'])).data = d ++ ['K', 'B'] from rfl, hK]
      simp [hne, unitOf]
    refine ⟨?_, ?_, ?_⟩
    · simp [parsedLimit, string_mk_append_unit_ne_empty d 'M' 'B', hmM]
    · simp [parsedLimit, string_mk_append_unit_ne_empty d 'G' 'B', hmG]
    · simp [parsedLimit, string_mk_append_unit_ne_empty d 'K' 'B', hmK]

/-- Witness for C10: the rejected string `"xyz"` parses to 100, and the
matching string `"7KB"` parses to 7/1024 MB. -/
theorem C10_memory_limit_parse_witness :
    parsedLimit (some (.str "xyz")) = 100 ∧
    parsedLimit (some (.str (String.mk (['7'] ++ ['K', 'B'])))) = (natOfDigits ['7'] : ℚ) / 1024 :=
  ⟨C10_memory_limit_parse.2.2.2.1 "xyz" (by decide),
   (C10_memory_limit_parse.2.2.2.2 ['7'] (by decide) (by decide)).2.2⟩
